import Mathlib

/-!
Verification of the imalink-core image-ingestion pipeline.

The orchestrator `process_image_endpoint` is embedded from
src/service/main.py.  The leaf components (ImageValidator, ExifExtractor,
PreviewGenerator, HothashCalculator, CorePhoto helpers) are imported there
from the imalink_core package, whose implementation files are not part of
the repository snapshot; they are modelled from the specification
(each such definition carries a doc comment saying so).  The orchestrator
itself is parameterised over an environment record `Env` holding those
component functions, so theorems about the orchestrator hold for every
behaviour of the components, and a concrete spec-modelled environment
`coreEnv` instantiates them for claims that need component internals.
-/

deriving instance DecidableEq for Except

/-- Byte buffers are lists of naturals (each entry one byte). -/
abbrev Bytes := List Nat

/-- Embedded from main.py, class BasicMetadata (fields as used at lines
183 to 189 and listed in the spec data model section 3). Optional EXIF
fields are explicit options, never sentinel numbers. -/
structure BasicMetadata where
  width : Nat
  height : Nat
  taken_at : Option String
  camera_make : Option String
  camera_model : Option String
  gps_latitude : Option ℚ
  gps_longitude : Option ℚ
  gps_altitude : Option ℚ
  gps_timestamp : Option String
  gps_datestamp : Option String
  gps_map_datum : Option String
deriving DecidableEq, Repr

/-- Embedded from main.py, class CameraSettings fields as used at lines
191 to 196 and the spec data model section 3. -/
structure CameraSettings where
  iso : Option Nat
  aperture : Option ℚ
  shutter_speed : Option String
  focal_length : Option ℚ
  lens_model : Option String
  lens_make : Option String
deriving DecidableEq, Repr

/-- Modelled from the spec: HotPreview record produced by
PreviewGenerator.generate_hotpreview (implementation not in the snapshot;
main.py reads the attributes hothash, base64, width, height). -/
structure HotPreview where
  bytes : Bytes
  base64 : String
  width : Nat
  height : Nat
  hothash : String
deriving DecidableEq, Repr, Inhabited

/-- Modelled from the spec: ColdPreview record produced by
PreviewGenerator.generate_coldpreview (implementation not in the snapshot;
main.py reads the attributes base64, width, height). -/
structure ColdPreview where
  bytes : Bytes
  base64 : String
  width : Nat
  height : Nat
deriving DecidableEq, Repr

/-- Embedded from main.py: the assembled output record (CorePhoto, built
at lines 174 to 197, serialised field-for-field into PhotoEggResponse at
lines 48 to 87).  Note the preview fields are base64 strings in the code. -/
structure CorePhoto where
  hothash : String
  hotpreview_base64 : String
  hotpreview_width : Nat
  hotpreview_height : Nat
  coldpreview_base64 : Option String
  coldpreview_width : Option Nat
  coldpreview_height : Option Nat
  primary_filename : String
  width : Nat
  height : Nat
  taken_at : Option String
  camera_make : Option String
  camera_model : Option String
  gps_latitude : Option ℚ
  gps_longitude : Option ℚ
  has_gps : Bool
  iso : Option Nat
  aperture : Option ℚ
  shutter_speed : Option String
  focal_length : Option ℚ
  lens_model : Option String
  lens_make : Option String
deriving DecidableEq, Repr, Inhabited

/-- Embedded from main.py lines 38 to 45: the request model.
coldpreview_size is an optional integer; None means skip coldpreview. -/
structure ProcessImageRequest where
  file_path : String
  coldpreview_size : Option Int
deriving DecidableEq, Repr

/-- Error taxonomy of the pipeline (spec section 7); in main.py each case
is an HTTPException 400 whose detail string distinguishes the cause. -/
inductive PipelineError where
  | invalidParameter (detail : String)
  | fileNotFound (detail : String)
  | invalidFile (detail : String)
  | processingFailed (detail : String)
deriving DecidableEq, Repr

/-- Environment of component functions the orchestrator calls.  The
components live outside the snapshot; per spec sections 4 and 5 they are
pure, deterministic, and keyed on the file content bytes (identical bytes
give identical output regardless of filename).  Metadata extraction is
total (the tolerance contract: a malformed tag yields an absent field,
never an exception); preview generation may fail. -/
structure Env where
  fileExists : String → Bool
  fileBytes : String → Bytes
  fileMtime : String → String
  validateFile : Bytes → Bool × String
  extractBasic : Bytes → String → BasicMetadata
  extractCameraSettings : Bytes → CameraSettings
  generateHotpreview : Bytes → Except String HotPreview
  generateColdpreview : Bytes → Int → Except String ColdPreview

/-- Test at main.py line 132: coldpreview_size is provided and below
150 (the hotpreview size). -/
def coldpreviewSizeInvalid (c : Option Int) : Bool :=
  match c with
  | some s => decide (s < 150)
  | none => false

/-- Characters of the last slash-separated path component. -/
def lastComponent (acc : List Char) : List Char → List Char
  | [] => acc
  | c :: rest =>
    if c = '/' then lastComponent [] rest else lastComponent (acc ++ [c]) rest

/-- Basename of a path, as Python pathlib Path.name at main.py line 182. -/
def pathName (p : String) : String :=
  String.mk (lastComponent [] p.toList)

/-- Embedded from main.py lines 160 to 171: run the optional coldpreview
generation, none requested giving none. -/
def coldpreviewStep (env : Env) (bytes : Bytes) (c : Option Int) :
    Except String (Option ColdPreview) :=
  match c with
  | some s =>
    match env.generateColdpreview bytes s with
    | .error e => .error e
    | .ok cp => .ok (some cp)
  | none => .ok none

/-- Embedded from main.py lines 174 to 197: assembly of the CorePhoto
record from the extracted metadata, camera settings and previews. -/
def assemblePhoto (env : Env) (request : ProcessImageRequest)
    (hotpreview : HotPreview) (coldOpt : Option ColdPreview) : CorePhoto :=
  let bytes := env.fileBytes request.file_path
  let metadata := env.extractBasic bytes (env.fileMtime request.file_path)
  let camera_settings := env.extractCameraSettings bytes
  { hothash := hotpreview.hothash
    hotpreview_base64 := hotpreview.base64
    hotpreview_width := hotpreview.width
    hotpreview_height := hotpreview.height
    coldpreview_base64 := coldOpt.map (fun cp => cp.base64)
    coldpreview_width := coldOpt.map (fun cp => cp.width)
    coldpreview_height := coldOpt.map (fun cp => cp.height)
    primary_filename := pathName request.file_path
    width := metadata.width
    height := metadata.height
    taken_at := metadata.taken_at
    camera_make := metadata.camera_make
    camera_model := metadata.camera_model
    gps_latitude := metadata.gps_latitude
    gps_longitude := metadata.gps_longitude
    has_gps := metadata.gps_latitude.isSome
    iso := camera_settings.iso
    aperture := camera_settings.aperture
    shutter_speed := camera_settings.shutter_speed
    focal_length := camera_settings.focal_length
    lens_model := camera_settings.lens_model
    lens_make := camera_settings.lens_make }

/-- Embedded from main.py lines 107 to 208: the orchestrator.  Branches
mirror the source line by line: coldpreview_size check (131), file
existence (140), ImageValidator.validate_file (147), then the try block:
metadata extraction (153 to 154), hotpreview (157), optional coldpreview
(160 to 171), CorePhoto assembly (174 to 197). -/
def process_image_endpoint (env : Env) (request : ProcessImageRequest) :
    Except PipelineError CorePhoto :=
  if coldpreviewSizeInvalid request.coldpreview_size then
    .error (.invalidParameter
      ("coldpreview_size must be >= 150 (hotpreview size), got " ++
        toString (request.coldpreview_size.getD 0)))
  else if env.fileExists request.file_path = false then
    .error (.fileNotFound ("File not found: " ++ request.file_path))
  else if (env.validateFile (env.fileBytes request.file_path)).1 = false then
    .error (.invalidFile (env.validateFile (env.fileBytes request.file_path)).2)
  else
    match env.generateHotpreview (env.fileBytes request.file_path) with
    | .error e => .error (.processingFailed ("Processing failed: " ++ e))
    | .ok hotpreview =>
      match coldpreviewStep env (env.fileBytes request.file_path)
          request.coldpreview_size with
      | .error e => .error (.processingFailed ("Processing failed: " ++ e))
      | .ok coldOpt => .ok (assemblePhoto env request hotpreview coldOpt)

/-- The orchestrator steps of spec section 4.5, in their specified order. -/
inductive Step where
  | validateParam
  | checkFileExists
  | validateFile
  | extractMetadata
  | generateHotpreview
  | generateColdpreview
  | assemble
deriving DecidableEq, Repr

/-- The canonical full step order of the orchestrator (spec section 4.5);
the coldpreview step may be skipped when no size is requested. -/
def orchestratorOrder : List Step :=
  [.validateParam, .checkFileExists, .validateFile, .extractMetadata,
   .generateHotpreview, .generateColdpreview, .assemble]

/- Spec-modelled leaf components.  The imalink_core implementation files
are not in the snapshot; each definition below is modelled from the
specification text and carries a doc comment naming what is missing. -/

/-- The base64 alphabet (RFC 4648). -/
def b64Alphabet : List Char :=
  "ABCDEFGHIJKLMNOPQRSTUVWXYZabcdefghijklmnopqrstuvwxyz0123456789+/".toList

/-- Character for a 6-bit group. -/
def b64Char (i : Nat) : Char := b64Alphabet.getD i '='

/-- Split a byte list into chunks of at most three bytes. -/
def b64Chunks : Bytes → List Bytes
  | [] => []
  | a :: b :: c :: rest => [a, b, c] :: b64Chunks rest
  | xs => [xs]

/-- Encode one chunk of one to three bytes into four base64 characters. -/
def b64EncodeChunk : Bytes → String
  | [a] =>
    String.mk [b64Char (a / 4 % 64), b64Char (a * 16 % 64), '=', '=']
  | [a, b] =>
    String.mk [b64Char (a / 4 % 64), b64Char ((a * 16 + b / 16) % 64),
      b64Char (b * 4 % 64), '=']
  | [a, b, c] =>
    String.mk [b64Char (a / 4 % 64), b64Char ((a * 16 + b / 16) % 64),
      b64Char ((b * 4 + c / 64) % 64), b64Char (c % 64)]
  | _ => ""

/-- Standard base64 encoding of a byte buffer. -/
def base64Encode (bs : Bytes) : String :=
  String.join ((b64Chunks bs).map b64EncodeChunk)

/-- Render a byte buffer as the raw one-char-per-byte string (what the
record would hold if it carried the encoded image bytes themselves,
leaving base64 to the transport layer). -/
def rawByteString (bs : Bytes) : String :=
  String.mk (bs.map Char.ofNat)

/-- Modelled from the spec: HothashCalculator, a pure deterministic
digest of a byte buffer to a fixed-width hex string (SHA-256 class; the
concrete compression function is not in the snapshot, modelled as a
deterministic fold into 256 bits).  No randomness, no salt, no state. -/
def hothash_calculate (bs : Bytes) : String :=
  let n := bs.foldl (fun acc b => (acc * 257 + b % 256 + 1) % (2 ^ 256)) 1
  String.mk (Nat.toDigits 16 n)

/-- Modelled from the spec: FormatDetector header sniffing.  The toy
container layout is magicByte :: width :: height :: exifPayload, where a
recognised magic byte and non-degenerate dimensions classify the input. -/
def decodeDims (bs : Bytes) : Option (Nat × Nat) :=
  match bs with
  | m :: w :: h :: _ => if m = 255 ∧ 1 ≤ w ∧ 1 ≤ h then some (w, h) else none
  | _ => none

/-- Modelled from the spec: ImageValidator.validate_file (called at
main.py line 147, implementation not in the snapshot).  Rejects empty
input and input whose header does not classify; purely inspective. -/
def validate_file (bs : Bytes) : Bool × String :=
  if bs = [] then (false, "Empty or unreadable file")
  else
    match decodeDims bs with
    | some _ => (true, "")
    | none => (false, "Invalid or unsupported image format")

/-- Raw EXIF tag values as decoded from the container, before the
interpretation rules of spec section 4.2 are applied.  Every field is an
explicit option: a missing or malformed tag is simply absent. -/
structure ExifData where
  dateTimeOriginal : Option String := none
  dateTimeDigitized : Option String := none
  dateTime : Option String := none
  make : Option String := none
  model : Option String := none
  gpsLatitude : Option (ℚ × ℚ × ℚ) := none
  gpsLatitudeRef : Option String := none
  gpsLongitude : Option (ℚ × ℚ × ℚ) := none
  gpsLongitudeRef : Option String := none
  isoTag : Option Nat := none
  apertureFNumber : Option ℚ := none
deriving DecidableEq, Repr

/-- Read a degree/minute/second rational triple from a six-entry payload
of numerator/denominator pairs; a zero denominator is malformed. -/
def readDmsTriple (p : Bytes) : Option (ℚ × ℚ × ℚ) :=
  match p with
  | [dn, dd, mn, md, sn, sd] =>
    if dd = 0 ∨ md = 0 ∨ sd = 0 then none
    else some ((dn : ℚ) / dd, (mn : ℚ) / md, (sn : ℚ) / sd)
  | _ => none

/-- Decode a tag payload into a string (one char per byte). -/
def readTagString (p : Bytes) : Option String :=
  if p = [] then none else some (String.mk (p.map Char.ofNat))

/-- Apply one decoded tag entry to the accumulated ExifData.  An entry
whose payload does not fit the tag's shape is ignored (tolerance
contract: malformed tag, absent field, never an exception). -/
def applyTag (e : ExifData) (tag : Nat) (p : Bytes) : ExifData :=
  match tag with
  | 1 => match readTagString p with
         | some s => { e with dateTimeOriginal := some s } | none => e
  | 2 => match readTagString p with
         | some s => { e with dateTimeDigitized := some s } | none => e
  | 3 => match readTagString p with
         | some s => { e with dateTime := some s } | none => e
  | 4 => match readTagString p with
         | some s => { e with make := some s } | none => e
  | 5 => match readTagString p with
         | some s => { e with model := some s } | none => e
  | 6 => match readDmsTriple p with
         | some t => { e with gpsLatitude := some t } | none => e
  | 7 => match readTagString p with
         | some s => { e with gpsLatitudeRef := some s } | none => e
  | 8 => match readDmsTriple p with
         | some t => { e with gpsLongitude := some t } | none => e
  | 9 => match readTagString p with
         | some s => { e with gpsLongitudeRef := some s } | none => e
  | 10 => match p with
          | [v] => { e with isoTag := some v } | _ => e
  | 11 => match p with
          | [n, d] => if d = 0 then e
                      else { e with apertureFNumber := some ((n : ℚ) / d) }
          | _ => e
  | _ => e

/-- Fuel-bounded scan over the EXIF payload: entries are tag :: len ::
payload.  A truncated or nonsensical entry ends the scan with whatever
was decoded so far; the scan is total and never fails. -/
def scanTags (fuel : Nat) (e : ExifData) (bs : Bytes) : ExifData :=
  match fuel with
  | 0 => e
  | fuel + 1 =>
    match bs with
    | tag :: len :: rest =>
      if len ≤ rest.length then
        scanTags fuel (applyTag e tag (rest.take len)) (rest.drop len)
      else e
    | _ => e

/-- Modelled from the spec: the EXIF decode pass of ExifExtractor
(implementation not in the snapshot).  Total: any input, including a
corrupted EXIF payload inside a valid container, yields an ExifData
record, with undecodable tags absent. -/
def parseExif (bs : Bytes) : ExifData :=
  match bs with
  | _ :: _ :: _ :: payload => scanTags payload.length {} payload
  | _ => {}

/-- Modelled from the spec (section 4.2): GPS coordinate assembly.
Combines a degree/minute/second rational triple with its hemisphere
reference tag into signed decimal degrees; if either the coordinate tag
or the reference tag is absent the coordinate is absent, never zero. -/
def gps_coordinate (dms : Option (ℚ × ℚ × ℚ)) (ref : Option String) :
    Option ℚ :=
  match dms, ref with
  | some (d, m, s), some r =>
    let dec := d + m / 60 + s / 3600
    if r = "S" ∨ r = "W" then some (-dec) else some dec
  | _, _ => none

/-- Modelled from the spec (section 4.2): timestamp precedence.  Prefer
DateTimeOriginal, then DateTimeDigitized, then generic DateTime, then
fall back to the filesystem modification time. -/
def taken_at_of (dtOriginal dtDigitized dt : Option String)
    (fsMtime : String) : String :=
  match dtOriginal with
  | some s => s
  | none =>
    match dtDigitized with
    | some s => s
    | none =>
      match dt with
      | some s => s
      | none => fsMtime

/-- Modelled from the spec: ExifExtractor.extract_basic (called at
main.py line 153, implementation not in the snapshot).  Width and height
fall back to container-level dimensions; GPS and timestamp follow the
decoding rules above; total on every input. -/
def extract_basic (bs : Bytes) (fsMtime : String) : BasicMetadata :=
  let e := parseExif bs
  let dims := (decodeDims bs).getD (0, 0)
  { width := dims.1
    height := dims.2
    taken_at := some (taken_at_of e.dateTimeOriginal e.dateTimeDigitized
      e.dateTime fsMtime)
    camera_make := e.make
    camera_model := e.model
    gps_latitude := gps_coordinate e.gpsLatitude e.gpsLatitudeRef
    gps_longitude := gps_coordinate e.gpsLongitude e.gpsLongitudeRef
    gps_altitude := none
    gps_timestamp := none
    gps_datestamp := none
    gps_map_datum := none }

/-- Modelled from the spec: ExifExtractor.extract_camera_settings
(called at main.py line 154, implementation not in the snapshot).
Total on every input; undecoded settings are absent. -/
def extract_camera_settings (bs : Bytes) : CameraSettings :=
  let e := parseExif bs
  { iso := e.isoTag
    aperture := e.apertureFNumber
    shutter_speed := none
    focal_length := none
    lens_model := none
    lens_make := none }

/-- Modelled from the spec (section 4.3): scale so the shorter edge
reaches 150 (integer scaling of the longer edge). -/
def hotpreviewScaledDims (w h : Nat) : Nat × Nat :=
  if w ≤ h then (150, h * 150 / w) else (w * 150 / h, 150)

/-- Modelled from the spec (section 4.3): center-crop the longer axis
down to the 150 by 150 target (never letterbox). -/
def centerCrop (d : Nat × Nat) : Nat × Nat :=
  (min d.1 150, min d.2 150)

/-- The hotpreview output dimensions: scale shorter edge to 150, then
center-crop the longer axis. -/
def hotpreviewDims (w h : Nat) : Nat × Nat :=
  centerCrop (hotpreviewScaledDims w h)

/-- Modelled from the spec (section 4.3): aspect-preserving coldpreview
dimensions, longer edge scaled to the requested maximum, no cropping. -/
def coldpreviewDims (w h m : Nat) : Nat × Nat :=
  if w ≤ h then (w * m / h, m) else (m, h * m / w)

/-- Deterministic re-encode of resized pixel data at the fixed quality
setting: a pure function of the source bytes and output dimensions. -/
def encodeImage (bs : Bytes) (d : Nat × Nat) : Bytes :=
  d.1 :: d.2 :: bs

/-- Modelled from the spec: PreviewGenerator.generate_hotpreview (called
at main.py line 157, implementation not in the snapshot).  Deterministic:
decode, resize and crop to exactly 150 by 150, re-encode, and hash the
exact encoded byte stream with HothashCalculator.  Fails with a
PreviewGenerationError when the pixel data cannot be decoded. -/
def generate_hotpreview (bs : Bytes) : Except String HotPreview :=
  match decodeDims bs with
  | none => .error "PreviewGenerationError: cannot decode pixel data"
  | some (w, h) =>
    let d := hotpreviewDims w h
    let enc := encodeImage bs d
    .ok { bytes := enc
          base64 := base64Encode enc
          width := d.1
          height := d.2
          hothash := hothash_calculate enc }

/-- Modelled from the spec: PreviewGenerator.generate_coldpreview
(called at main.py line 161, implementation not in the snapshot).
Aspect-preserving resize so the longer edge equals max_size; defensive
invariant: rejects max_size below 150 inside the pipeline; carries no
hash. -/
def generate_coldpreview (bs : Bytes) (maxSize : Int) :
    Except String ColdPreview :=
  if maxSize < 150 then
    .error "InvalidParameter: max_size must be >= 150"
  else
    match decodeDims bs with
    | none => .error "PreviewGenerationError: cannot decode pixel data"
    | some (w, h) =>
      let d := coldpreviewDims w h maxSize.toNat
      let enc := encodeImage bs d
      .ok { bytes := enc
            base64 := base64Encode enc
            width := d.1
            height := d.2 }

/-- Abstract filesystem a concrete run sees. -/
structure Fs where
  exists_ : String → Bool
  read : String → Bytes
  mtimeOf : String → String

/-- The concrete environment: the spec-modelled components over a given
filesystem. -/
def coreEnv (fs : Fs) : Env :=
  { fileExists := fs.exists_
    fileBytes := fs.read
    fileMtime := fs.mtimeOf
    validateFile := validate_file
    extractBasic := extract_basic
    extractCameraSettings := extract_camera_settings
    generateHotpreview := generate_hotpreview
    generateColdpreview := generate_coldpreview }

/-- Trace of the steps actually executed by process_image_endpoint,
following the same branch structure as the embedding above: each step is
recorded when control reaches it, and a failing step is the last entry. -/
def pipelineSteps (env : Env) (request : ProcessImageRequest) : List Step :=
  .validateParam ::
  (if coldpreviewSizeInvalid request.coldpreview_size then []
   else .checkFileExists ::
    (if env.fileExists request.file_path = false then []
     else .validateFile ::
      (if (env.validateFile (env.fileBytes request.file_path)).1 = false then []
       else .extractMetadata :: .generateHotpreview ::
        (match env.generateHotpreview (env.fileBytes request.file_path) with
         | .error _ => []
         | .ok _ =>
           match request.coldpreview_size with
           | some s => .generateColdpreview ::
             (match env.generateColdpreview (env.fileBytes request.file_path) s with
              | .error _ => []
              | .ok _ => [.assemble])
           | none => [.assemble]))))

/-- Sample filesystem: one small valid image, no interesting EXIF. -/
def sampleFs : Fs :=
  { exists_ := fun p => p == "/photos/a.jpg"
    read := fun _ => [255, 3, 2, 1, 1, 65]
    mtimeOf := fun _ => "2024-01-01T00:00:00" }

/-- Sample filesystem: a valid image whose EXIF payload carries GPS
degree/minute/second triples with hemisphere references S and W. -/
def gpsFs : Fs :=
  { exists_ := fun p => p == "/photos/gps.jpg"
    read := fun _ =>
      [255, 4, 3,
       6, 6, 47, 1, 30, 1, 0, 1,
       7, 1, 83,
       8, 6, 122, 1, 15, 1, 0, 1,
       9, 1, 87]
    mtimeOf := fun _ => "2024-02-02T00:00:00" }

/-- Sample filesystem: a valid container whose EXIF payload is corrupted
(a tag header announcing more payload than exists). -/
def corruptExifFs : Fs :=
  { exists_ := fun p => p == "/photos/corrupt.jpg"
    read := fun _ => [255, 3, 2, 6, 99]
    mtimeOf := fun _ => "2024-03-03T00:00:00" }

/-- The record a successful concrete run produces (default on failure);
used to spell out concrete runs in closed statements. -/
def runPhoto (fs : Fs) (req : ProcessImageRequest) : CorePhoto :=
  (process_image_endpoint (coreEnv fs) req).toOption.getD default

/-- The hotpreview a concrete byte buffer produces (default on failure). -/
def runHot (bs : Bytes) : HotPreview :=
  (generate_hotpreview bs).toOption.getD default

/-- Elimination principle for a successful pipeline run: success means
the hotpreview and the (possibly skipped) coldpreview steps succeeded and
the returned record is exactly the assembled one. -/
theorem process_ok_elim (env : Env) (req : ProcessImageRequest)
    (ph : CorePhoto) (h : process_image_endpoint env req = .ok ph) :
    ∃ hp coldOpt,
      env.generateHotpreview (env.fileBytes req.file_path) = .ok hp ∧
      coldpreviewStep env (env.fileBytes req.file_path)
        req.coldpreview_size = .ok coldOpt ∧
      ph = assemblePhoto env req hp coldOpt := by
  unfold process_image_endpoint at h
  split at h
  · exact Except.noConfusion h
  · split at h
    · exact Except.noConfusion h
    · split at h
      · exact Except.noConfusion h
      · split at h
        · exact Except.noConfusion h
        · next hp heq =>
          split at h
          · exact Except.noConfusion h
          · next coldOpt heq2 =>
            injection h with h
            exact ⟨hp, coldOpt, heq, heq2, h.symm⟩

/-- A requested coldpreview that reaches assembly succeeded: the step
returns some generated preview. -/
theorem coldpreviewStep_some_elim (env : Env) (bytes : Bytes) (s : Int)
    (coldOpt : Option ColdPreview)
    (h : coldpreviewStep env bytes (some s) = .ok coldOpt) :
    ∃ cp, env.generateColdpreview bytes s = .ok cp ∧ coldOpt = some cp := by
  rcases hg : env.generateColdpreview bytes s with e | cp
  · exfalso
    have he : coldpreviewStep env bytes (some s) = .error e := by
      simp [coldpreviewStep, hg]
    rw [he] at h
    exact Except.noConfusion h
  · have ho : coldpreviewStep env bytes (some s) = .ok (some cp) := by
      simp [coldpreviewStep, hg]
    rw [ho] at h
    injection h with h
    exact ⟨cp, rfl, h.symm⟩

/-- When no coldpreview is requested the step yields none. -/
theorem coldpreviewStep_none_elim (env : Env) (bytes : Bytes)
    (coldOpt : Option ColdPreview)
    (h : coldpreviewStep env bytes none = .ok coldOpt) : coldOpt = none := by
  unfold coldpreviewStep at h
  injection h with h
  exact h.symm

/-- Claim C1: for every valid image input, the hothash field of the
returned PhotoEgg is identical across repeated calls on the same input
and independent of the coldpreview_size argument; two successful runs on
files with identical bytes, with any two coldpreview_size values
(including absent), yield equal hothash strings. -/
theorem hothash_deterministic_and_size_independent (env : Env)
    (p₁ p₂ : String) (c₁ c₂ : Option Int) (ph₁ ph₂ : CorePhoto)
    (hbytes : env.fileBytes p₁ = env.fileBytes p₂)
    (h₁ : process_image_endpoint env ⟨p₁, c₁⟩ = .ok ph₁)
    (h₂ : process_image_endpoint env ⟨p₂, c₂⟩ = .ok ph₂) :
    ph₁.hothash = ph₂.hothash := by
  obtain ⟨hp₁, co₁, hg₁, _, hph₁⟩ := process_ok_elim _ _ _ h₁
  obtain ⟨hp₂, co₂, hg₂, _, hph₂⟩ := process_ok_elim _ _ _ h₂
  subst hph₁ hph₂
  have hpe : Except.ok (ε := String) hp₁ = Except.ok hp₂ := by
    rw [← hg₁, ← hg₂]
    simp only
    rw [hbytes]
  injection hpe with hpe
  simp [assemblePhoto, hpe]

/-- Witness for C1: two concrete runs on the same file, one without and
one with a coldpreview size, give the same hothash. -/
theorem hothash_deterministic_witness :
    (coreEnv sampleFs).fileBytes "/photos/a.jpg" =
      (coreEnv sampleFs).fileBytes "/photos/a.jpg" ∧
    process_image_endpoint (coreEnv sampleFs) ⟨"/photos/a.jpg", none⟩ =
      .ok (runPhoto sampleFs ⟨"/photos/a.jpg", none⟩) ∧
    process_image_endpoint (coreEnv sampleFs) ⟨"/photos/a.jpg", some 300⟩ =
      .ok (runPhoto sampleFs ⟨"/photos/a.jpg", some 300⟩) ∧
    (runPhoto sampleFs ⟨"/photos/a.jpg", none⟩).hothash =
      (runPhoto sampleFs ⟨"/photos/a.jpg", some 300⟩).hothash :=
  ⟨rfl, by decide, by decide,
    hothash_deterministic_and_size_independent (coreEnv sampleFs)
      "/photos/a.jpg" "/photos/a.jpg" none (some 300) _ _ rfl
      (by decide) (by decide)⟩

/-- Claim C2: for every successful call, the returned record satisfies
has_gps equal to the presence of gps_latitude. -/
theorem has_gps_iff_latitude_present (env : Env)
    (req : ProcessImageRequest) (ph : CorePhoto)
    (h : process_image_endpoint env req = .ok ph) :
    ph.has_gps = ph.gps_latitude.isSome := by
  obtain ⟨hp, coldOpt, _, _, hph⟩ := process_ok_elim _ _ _ h
  subst hph
  simp [assemblePhoto]

/-- Witness for C2: a concrete run on an image with GPS EXIF returns a
record with gps_latitude present and has_gps true accordingly. -/
theorem has_gps_iff_latitude_present_witness :
    process_image_endpoint (coreEnv gpsFs) ⟨"/photos/gps.jpg", none⟩ =
      .ok (runPhoto gpsFs ⟨"/photos/gps.jpg", none⟩) ∧
    (runPhoto gpsFs ⟨"/photos/gps.jpg", none⟩).gps_latitude.isSome = true ∧
    (runPhoto gpsFs ⟨"/photos/gps.jpg", none⟩).has_gps =
      (runPhoto gpsFs ⟨"/photos/gps.jpg", none⟩).gps_latitude.isSome :=
  ⟨rfl, rfl,
    has_gps_iff_latitude_present (coreEnv gpsFs) ⟨"/photos/gps.jpg", none⟩
      _ rfl⟩

/-- Claim C3: a provided coldpreview_size below 150 fails the call with
the InvalidParameter error, and the rejection happens before any file
read or decode work: the result and the one-entry step trace hold for
every environment, in particular those where the file does not exist or
is not a valid image. -/
theorem coldpreview_size_below_150_fails_before_io (env : Env)
    (p : String) (s : Int) (hs : s < 150) :
    process_image_endpoint env ⟨p, some s⟩ =
      .error (.invalidParameter
        ("coldpreview_size must be >= 150 (hotpreview size), got " ++
          toString s)) ∧
    pipelineSteps env ⟨p, some s⟩ = [Step.validateParam] := by
  constructor
  · simp [process_image_endpoint, coldpreviewSizeInvalid, hs]
  · simp [pipelineSteps, coldpreviewSizeInvalid, hs]

/-- Witness for C3: coldpreview_size 100 on a missing, unreadable file
is rejected as InvalidParameter with no later step executed. -/
theorem coldpreview_size_below_150_fails_before_io_witness :
    ((100 : Int) < 150) ∧
    (process_image_endpoint (coreEnv sampleFs) ⟨"/missing.jpg", some 100⟩ =
       .error (.invalidParameter
         ("coldpreview_size must be >= 150 (hotpreview size), got " ++
           toString (100 : Int))) ∧
     pipelineSteps (coreEnv sampleFs) ⟨"/missing.jpg", some 100⟩ =
       [Step.validateParam]) :=
  ⟨by decide,
    coldpreview_size_below_150_fails_before_io (coreEnv sampleFs)
      "/missing.jpg" 100 (by decide)⟩

/-- Claim C10: the three coldpreview fields of a successful record are
all absent when coldpreview_size was not provided and all present when
it was; they are never partially populated. -/
theorem coldpreview_fields_all_or_none (env : Env)
    (req : ProcessImageRequest) (ph : CorePhoto)
    (h : process_image_endpoint env req = .ok ph) :
    (req.coldpreview_size = none →
      ph.coldpreview_base64 = none ∧ ph.coldpreview_width = none ∧
      ph.coldpreview_height = none) ∧
    (∀ s, req.coldpreview_size = some s →
      ph.coldpreview_base64.isSome = true ∧
      ph.coldpreview_width.isSome = true ∧
      ph.coldpreview_height.isSome = true) := by
  obtain ⟨hp, coldOpt, _, hcold, hph⟩ := process_ok_elim _ _ _ h
  subst hph
  constructor
  · intro hn
    rw [hn] at hcold
    have := coldpreviewStep_none_elim _ _ _ hcold
    subst this
    simp [assemblePhoto]
  · intro s hsome
    rw [hsome] at hcold
    obtain ⟨cp, _, hco⟩ := coldpreviewStep_some_elim _ _ _ _ hcold
    subst hco
    simp [assemblePhoto]

/-- Witness for C10: a concrete run requesting a 300 pixel coldpreview
has all three coldpreview fields populated. -/
theorem coldpreview_fields_all_or_none_witness :
    process_image_endpoint (coreEnv sampleFs) ⟨"/photos/a.jpg", some 300⟩ =
      .ok (runPhoto sampleFs ⟨"/photos/a.jpg", some 300⟩) ∧
    ((some (300 : Int) = none →
       (runPhoto sampleFs ⟨"/photos/a.jpg", some 300⟩).coldpreview_base64
         = none ∧
       (runPhoto sampleFs ⟨"/photos/a.jpg", some 300⟩).coldpreview_width
         = none ∧
       (runPhoto sampleFs ⟨"/photos/a.jpg", some 300⟩).coldpreview_height
         = none) ∧
     (∀ s, some (300 : Int) = some s →
       (runPhoto sampleFs
         ⟨"/photos/a.jpg", some 300⟩).coldpreview_base64.isSome = true ∧
       (runPhoto sampleFs
         ⟨"/photos/a.jpg", some 300⟩).coldpreview_width.isSome = true ∧
       (runPhoto sampleFs
         ⟨"/photos/a.jpg", some 300⟩).coldpreview_height.isSome = true)) :=
  ⟨by decide,
    coldpreview_fields_all_or_none (coreEnv sampleFs)
      ⟨"/photos/a.jpg", some 300⟩ _ (by decide)⟩

/-- Claim C4: metadata extraction can never make the pipeline call fail.
The environment is arbitrary, so the extractors may return records with
any subset of fields absent (as they do for a corrupted EXIF block inside
a valid container); whenever the container checks and preview generation
succeed, the call returns a successful record whose optional metadata
fields are exactly what the tolerant extractors produced. -/
theorem metadata_shortfall_never_aborts (env : Env)
    (req : ProcessImageRequest) (hp : HotPreview)
    (hsize : coldpreviewSizeInvalid req.coldpreview_size = false)
    (hex : env.fileExists req.file_path = true)
    (hval : (env.validateFile (env.fileBytes req.file_path)).1 = true)
    (hhot : env.generateHotpreview (env.fileBytes req.file_path) = .ok hp)
    (hcold : ∀ s, req.coldpreview_size = some s →
      ∃ cp, env.generateColdpreview (env.fileBytes req.file_path) s = .ok cp) :
    ∃ ph, process_image_endpoint env req = .ok ph ∧
      ph.camera_make = (env.extractBasic (env.fileBytes req.file_path)
        (env.fileMtime req.file_path)).camera_make ∧
      ph.camera_model = (env.extractBasic (env.fileBytes req.file_path)
        (env.fileMtime req.file_path)).camera_model ∧
      ph.gps_latitude = (env.extractBasic (env.fileBytes req.file_path)
        (env.fileMtime req.file_path)).gps_latitude ∧
      ph.gps_longitude = (env.extractBasic (env.fileBytes req.file_path)
        (env.fileMtime req.file_path)).gps_longitude ∧
      ph.iso = (env.extractCameraSettings
        (env.fileBytes req.file_path)).iso := by
  have hcoldstep : ∃ coldOpt, coldpreviewStep env
      (env.fileBytes req.file_path) req.coldpreview_size = .ok coldOpt := by
    rcases hc : req.coldpreview_size with _ | s
    · exact ⟨none, by simp [coldpreviewStep]⟩
    · obtain ⟨cp, hcp⟩ := hcold s hc
      exact ⟨some cp, by simp [coldpreviewStep, hcp]⟩
  obtain ⟨coldOpt, hcs⟩ := hcoldstep
  refine ⟨assemblePhoto env req hp coldOpt, ?_, ?_, ?_, ?_, ?_, ?_⟩
  · simp [process_image_endpoint, hsize, hex, hval, hhot, hcs]
  · simp [assemblePhoto]
  · simp [assemblePhoto]
  · simp [assemblePhoto]
  · simp [assemblePhoto]
  · simp [assemblePhoto]

/-- Witness for C4: a valid container with a corrupted EXIF payload (a
tag announcing more bytes than exist) still processes successfully, with
the affected optional metadata fields absent. -/
theorem metadata_shortfall_never_aborts_witness :
    (extract_basic [255, 3, 2, 6, 99] "2024-03-03T00:00:00").gps_latitude
      = none ∧
    (extract_basic [255, 3, 2, 6, 99] "2024-03-03T00:00:00").camera_make
      = none ∧
    (∃ ph, process_image_endpoint (coreEnv corruptExifFs)
        ⟨"/photos/corrupt.jpg", none⟩ = .ok ph ∧
      ph.camera_make = ((coreEnv corruptExifFs).extractBasic
        ((coreEnv corruptExifFs).fileBytes "/photos/corrupt.jpg")
        ((coreEnv corruptExifFs).fileMtime "/photos/corrupt.jpg")).camera_make ∧
      ph.camera_model = ((coreEnv corruptExifFs).extractBasic
        ((coreEnv corruptExifFs).fileBytes "/photos/corrupt.jpg")
        ((coreEnv corruptExifFs).fileMtime "/photos/corrupt.jpg")).camera_model ∧
      ph.gps_latitude = ((coreEnv corruptExifFs).extractBasic
        ((coreEnv corruptExifFs).fileBytes "/photos/corrupt.jpg")
        ((coreEnv corruptExifFs).fileMtime "/photos/corrupt.jpg")).gps_latitude ∧
      ph.gps_longitude = ((coreEnv corruptExifFs).extractBasic
        ((coreEnv corruptExifFs).fileBytes "/photos/corrupt.jpg")
        ((coreEnv corruptExifFs).fileMtime "/photos/corrupt.jpg")).gps_longitude ∧
      ph.iso = ((coreEnv corruptExifFs).extractCameraSettings
        ((coreEnv corruptExifFs).fileBytes "/photos/corrupt.jpg")).iso) :=
  ⟨rfl, rfl,
    metadata_shortfall_never_aborts (coreEnv corruptExifFs)
      ⟨"/photos/corrupt.jpg", none⟩ (runHot [255, 3, 2, 6, 99])
      rfl rfl rfl rfl (fun _ hs => Option.noConfusion hs)⟩

/-- Claim C5: every call executes the orchestrator steps in the order
validate parameter, check file, classify/validate, extract metadata,
generate hotpreview, optionally generate coldpreview, assemble; the
executed trace is always an in-order sublist of that canonical order, a
successful call reaches assembly, and any failing call aborts before
assembly, returning a single error and no record (the result type admits
exactly one error or one record). -/
theorem orchestrator_step_order (env : Env) (req : ProcessImageRequest) :
    List.Sublist (pipelineSteps env req) orchestratorOrder ∧
    (∀ ph, process_image_endpoint env req = .ok ph →
      Step.assemble ∈ pipelineSteps env req) ∧
    (∀ e, process_image_endpoint env req = .error e →
      Step.assemble ∉ pipelineSteps env req) := by
  by_cases h1 : coldpreviewSizeInvalid req.coldpreview_size = true
  · have ht : pipelineSteps env req = [.validateParam] := by
      simp [pipelineSteps, h1]
    refine ⟨by rw [ht]; decide, ?_, ?_⟩
    · intro ph hph
      simp [process_image_endpoint, h1] at hph
    · intro e _
      rw [ht]; decide
  · by_cases h2 : env.fileExists req.file_path = false
    · have ht : pipelineSteps env req =
          [.validateParam, .checkFileExists] := by
        simp [pipelineSteps, h1, h2]
      refine ⟨by rw [ht]; decide, ?_, ?_⟩
      · intro ph hph
        simp [process_image_endpoint, h1, h2] at hph
      · intro e _
        rw [ht]; decide
    · by_cases h3 : (env.validateFile (env.fileBytes req.file_path)).1 = false
      · have ht : pipelineSteps env req =
            [.validateParam, .checkFileExists, .validateFile] := by
          simp [pipelineSteps, h1, h2, h3]
        refine ⟨by rw [ht]; decide, ?_, ?_⟩
        · intro ph hph
          simp [process_image_endpoint, h1, h2, h3] at hph
        · intro e _
          rw [ht]; decide
      · rcases hg : env.generateHotpreview (env.fileBytes req.file_path)
          with e₀ | hp
        · have ht : pipelineSteps env req =
              [.validateParam, .checkFileExists, .validateFile,
               .extractMetadata, .generateHotpreview] := by
            simp [pipelineSteps, h1, h2, h3, hg]
          refine ⟨by rw [ht]; decide, ?_, ?_⟩
          · intro ph hph
            simp [process_image_endpoint, h1, h2, h3, hg] at hph
          · intro e _
            rw [ht]; decide
        · rcases hc : req.coldpreview_size with _ | s
          all_goals rw [hc] at h1
          · have ht : pipelineSteps env req =
                [.validateParam, .checkFileExists, .validateFile,
                 .extractMetadata, .generateHotpreview, .assemble] := by
              simp [pipelineSteps, h1, h2, h3, hg, hc]
            refine ⟨by rw [ht]; decide, ?_, ?_⟩
            · intro ph _
              rw [ht]; decide
            · intro e he
              simp [process_image_endpoint, coldpreviewStep,
                h1, h2, h3, hg, hc] at he
          · rcases hcg : env.generateColdpreview
                (env.fileBytes req.file_path) s with e₁ | cp
            · have ht : pipelineSteps env req =
                  [.validateParam, .checkFileExists, .validateFile,
                   .extractMetadata, .generateHotpreview,
                   .generateColdpreview] := by
                simp [pipelineSteps, h1, h2, h3, hg, hc, hcg]
              refine ⟨by rw [ht]; decide, ?_, ?_⟩
              · intro ph hph
                simp [process_image_endpoint, coldpreviewStep,
                  h1, h2, h3, hg, hc, hcg] at hph
              · intro e _
                rw [ht]; decide
            · have ht : pipelineSteps env req =
                  [.validateParam, .checkFileExists, .validateFile,
                   .extractMetadata, .generateHotpreview,
                   .generateColdpreview, .assemble] := by
                simp [pipelineSteps, h1, h2, h3, hg, hc, hcg]
              refine ⟨by rw [ht]; decide, ?_, ?_⟩
              · intro ph _
                rw [ht]; decide
              · intro e he
                simp [process_image_endpoint, coldpreviewStep,
                  h1, h2, h3, hg, hc, hcg] at he

/-- Witness for C5: a concrete run with a coldpreview executes the full
canonical step order and reaches assembly. -/
theorem orchestrator_step_order_witness :
    List.Sublist (pipelineSteps (coreEnv sampleFs)
      ⟨"/photos/a.jpg", some 300⟩) orchestratorOrder ∧
    Step.assemble ∈ pipelineSteps (coreEnv sampleFs)
      ⟨"/photos/a.jpg", some 300⟩ :=
  ⟨(orchestrator_step_order (coreEnv sampleFs)
      ⟨"/photos/a.jpg", some 300⟩).1,
   (orchestrator_step_order (coreEnv sampleFs)
      ⟨"/photos/a.jpg", some 300⟩).2.1 _ rfl⟩

/-- A classified container has non-degenerate dimensions. -/
theorem decodeDims_pos (bs : Bytes) (w h : Nat)
    (hd : decodeDims bs = some (w, h)) : 1 ≤ w ∧ 1 ≤ h := by
  rcases bs with _ | ⟨m, _ | ⟨w', _ | ⟨h', rest⟩⟩⟩
  · exact Option.noConfusion hd
  · exact Option.noConfusion hd
  · exact Option.noConfusion hd
  · simp only [decodeDims] at hd
    split at hd
    · next hcond =>
      injection hd with hd
      injection hd with hd1 hd2
      subst hd1
      subst hd2
      obtain ⟨_, hw, hh⟩ := hcond
      exact ⟨hw, hh⟩
    · exact Option.noConfusion hd

/-- The hotpreview policy yields exactly 150 by 150 on any
non-degenerate source. -/
theorem hotpreviewDims_eq150 (w h : Nat) (hw : 1 ≤ w) (hh : 1 ≤ h) :
    hotpreviewDims w h = (150, 150) := by
  unfold hotpreviewDims hotpreviewScaledDims centerCrop
  by_cases hwh : w ≤ h
  · have hdiv : 150 ≤ h * 150 / w := by
      rw [Nat.le_div_iff_mul_le hw]
      rw [Nat.mul_comm h 150]
      exact Nat.mul_le_mul_left 150 hwh
    simp [hwh, Nat.min_eq_right hdiv]
  · have hhw : h ≤ w := Nat.le_of_not_le hwh
    have hdiv : 150 ≤ w * 150 / h := by
      rw [Nat.le_div_iff_mul_le hh]
      rw [Nat.mul_comm w 150]
      exact Nat.mul_le_mul_left 150 hhw
    simp [hwh, Nat.min_eq_right hdiv]

/-- A generated hotpreview's dimensions are the policy's dimensions for
the decoded source dimensions, which are non-degenerate. -/
theorem generate_hotpreview_dims (bs : Bytes) (hp : HotPreview)
    (h : generate_hotpreview bs = .ok hp) :
    ∃ w h', decodeDims bs = some (w, h') ∧ 1 ≤ w ∧ 1 ≤ h' ∧
      hp.width = (hotpreviewDims w h').1 ∧
      hp.height = (hotpreviewDims w h').2 := by
  unfold generate_hotpreview at h
  rcases hd : decodeDims bs with _ | ⟨w, h'⟩ <;> rw [hd] at h
  · exact Except.noConfusion h
  · injection h with h
    obtain ⟨hw, hh⟩ := decodeDims_pos bs w h' hd
    subst h
    exact ⟨w, h', rfl, hw, hh, rfl, rfl⟩

/-- Claim C6: the hotpreview policy (scale so the shorter edge reaches
150, then center-crop the longer axis) produces exactly 150 by 150 for
every non-degenerate source, and every successful concrete pipeline run
returns a record with hotpreview_width and hotpreview_height equal to
150, regardless of source aspect ratio. -/
theorem hotpreview_dims_always_150 :
    (∀ w h, 1 ≤ w → 1 ≤ h → hotpreviewDims w h = (150, 150)) ∧
    (∀ fs req ph, process_image_endpoint (coreEnv fs) req = .ok ph →
      ph.hotpreview_width = 150 ∧ ph.hotpreview_height = 150) := by
  refine ⟨hotpreviewDims_eq150, ?_⟩
  intro fs req ph hph
  obtain ⟨hp, coldOpt, hg, _, hphh⟩ := process_ok_elim _ _ _ hph
  subst hphh
  obtain ⟨w, h', _, hw, hh, hwid, hht⟩ := generate_hotpreview_dims _ _ hg
  constructor
  · simp [assemblePhoto, hwid, hotpreviewDims_eq150 w h' hw hh]
  · simp [assemblePhoto, hht, hotpreviewDims_eq150 w h' hw hh]

/-- Witness for C6: concrete dimensions and a concrete run, one with a
wide source, hit exactly 150 by 150. -/
theorem hotpreview_dims_always_150_witness :
    (1 ≤ 3 ∧ 1 ≤ 2 ∧ hotpreviewDims 3 2 = (150, 150)) ∧
    ((runPhoto sampleFs ⟨"/photos/a.jpg", none⟩).hotpreview_width = 150 ∧
     (runPhoto sampleFs ⟨"/photos/a.jpg", none⟩).hotpreview_height = 150) :=
  ⟨⟨by decide, by decide,
    hotpreview_dims_always_150.1 3 2 (by decide) (by decide)⟩,
   hotpreview_dims_always_150.2 sampleFs ⟨"/photos/a.jpg", none⟩ _ rfl⟩

/-- A generated hotpreview's base64 field is the base64 encoding of its
encoded preview bytes, computed by the generator itself. -/
theorem generate_hotpreview_base64 (bs : Bytes) (hp : HotPreview)
    (h : generate_hotpreview bs = .ok hp) :
    hp.base64 = base64Encode hp.bytes := by
  unfold generate_hotpreview at h
  rcases hd : decodeDims bs with _ | ⟨w, h'⟩ <;> rw [hd] at h
  · exact Except.noConfusion h
  · injection h with h
    subst h
    rfl

/-- A generated coldpreview's base64 field is the base64 encoding of its
encoded preview bytes, computed by the generator itself. -/
theorem generate_coldpreview_base64 (bs : Bytes) (m : Int)
    (cp : ColdPreview) (h : generate_coldpreview bs m = .ok cp) :
    cp.base64 = base64Encode cp.bytes := by
  unfold generate_coldpreview at h
  split at h
  · exact Except.noConfusion h
  · rcases hd : decodeDims bs with _ | ⟨w, h'⟩ <;> rw [hd] at h
    · exact Except.noConfusion h
    · injection h with h
      subst h
      rfl

/-- Claim C7 counterexample: the pipeline record does not carry the
hotpreview as the raw encoded image bytes with base64 left to the
transport layer; on a concrete run the record's preview field differs
from the raw byte string of the generated preview bytes and instead
equals their base64 encoding, produced inside the pipeline. -/
theorem record_preview_not_raw_bytes_cex :
    process_image_endpoint (coreEnv sampleFs) ⟨"/photos/a.jpg", none⟩ =
      .ok (runPhoto sampleFs ⟨"/photos/a.jpg", none⟩) ∧
    generate_hotpreview (sampleFs.read "/photos/a.jpg") =
      .ok (runHot [255, 3, 2, 1, 1, 65]) ∧
    (runPhoto sampleFs ⟨"/photos/a.jpg", none⟩).hotpreview_base64 ≠
      rawByteString (runHot [255, 3, 2, 1, 1, 65]).bytes ∧
    (runPhoto sampleFs ⟨"/photos/a.jpg", none⟩).hotpreview_base64 =
      base64Encode (runHot [255, 3, 2, 1, 1, 65]).bytes :=
  ⟨rfl, rfl, by decide, rfl⟩

/-- Claim C7 (amended): the successful record carries the hotpreview
(and the coldpreview when requested) as base64 strings of the encoded
preview bytes, and that base64 encoding is performed inside the pipeline
by the preview generator, not by the transport layer. -/
theorem record_preview_base64_inside_pipeline (fs : Fs)
    (req : ProcessImageRequest) (ph : CorePhoto)
    (h : process_image_endpoint (coreEnv fs) req = .ok ph) :
    ∃ hp, generate_hotpreview (fs.read req.file_path) = .ok hp ∧
      ph.hotpreview_base64 = base64Encode hp.bytes ∧
      ∀ s, req.coldpreview_size = some s →
        ∃ cp, generate_coldpreview (fs.read req.file_path) s = .ok cp ∧
          ph.coldpreview_base64 = some (base64Encode cp.bytes) := by
  obtain ⟨hp, coldOpt, hg, hcold, hph⟩ := process_ok_elim _ _ _ h
  subst hph
  refine ⟨hp, hg, ?_, ?_⟩
  · have hb := generate_hotpreview_base64 _ _ hg
    simp [assemblePhoto, hb]
  · intro s hs
    rw [hs] at hcold
    obtain ⟨cp, hcp, hco⟩ := coldpreviewStep_some_elim _ _ _ _ hcold
    subst hco
    refine ⟨cp, hcp, ?_⟩
    have hb := generate_coldpreview_base64 _ _ _ hcp
    simp [assemblePhoto, hb]

/-- Witness for the amended C7: a concrete run with a coldpreview. -/
theorem record_preview_base64_inside_pipeline_witness :
    process_image_endpoint (coreEnv sampleFs) ⟨"/photos/a.jpg", some 300⟩ =
      .ok (runPhoto sampleFs ⟨"/photos/a.jpg", some 300⟩) ∧
    (∃ hp, generate_hotpreview (sampleFs.read "/photos/a.jpg") = .ok hp ∧
      (runPhoto sampleFs ⟨"/photos/a.jpg", some 300⟩).hotpreview_base64 =
        base64Encode hp.bytes ∧
      ∀ s, (some (300 : Int)) = some s →
        ∃ cp, generate_coldpreview (sampleFs.read "/photos/a.jpg") s
            = .ok cp ∧
          (runPhoto sampleFs
            ⟨"/photos/a.jpg", some 300⟩).coldpreview_base64 =
            some (base64Encode cp.bytes)) :=
  ⟨rfl,
    record_preview_base64_inside_pipeline sampleFs
      ⟨"/photos/a.jpg", some 300⟩ _ rfl⟩

/-- Claim C8: GPS extraction combines degree/minute/second rational
triples with their hemisphere reference tags into signed decimal
degrees (south and west negative), and if either the coordinate tag or
its reference tag is absent the coordinate is absent, never zero; the
basic-metadata extractor computes its GPS fields exactly this way. -/
theorem gps_coordinate_requires_both_tags :
    (∀ ref, gps_coordinate none ref = none) ∧
    (∀ dms, gps_coordinate dms none = none) ∧
    (∀ d m s, gps_coordinate (some (d, m, s)) (some "N") =
      some (d + m / 60 + s / 3600)) ∧
    (∀ d m s, gps_coordinate (some (d, m, s)) (some "E") =
      some (d + m / 60 + s / 3600)) ∧
    (∀ d m s, gps_coordinate (some (d, m, s)) (some "S") =
      some (-(d + m / 60 + s / 3600))) ∧
    (∀ d m s, gps_coordinate (some (d, m, s)) (some "W") =
      some (-(d + m / 60 + s / 3600))) ∧
    (∀ bs mt, (extract_basic bs mt).gps_latitude =
      gps_coordinate (parseExif bs).gpsLatitude
        (parseExif bs).gpsLatitudeRef ∧
      (extract_basic bs mt).gps_longitude =
      gps_coordinate (parseExif bs).gpsLongitude
        (parseExif bs).gpsLongitudeRef) := by
  refine ⟨?_, ?_, ?_, ?_, ?_, ?_, ?_⟩
  · intro ref
    rfl
  · intro dms
    rcases dms with _ | ⟨d, m, s⟩ <;> rfl
  · intro d m s
    rfl
  · intro d m s
    rfl
  · intro d m s
    rfl
  · intro d m s
    rfl
  · intro bs mt
    exact ⟨rfl, rfl⟩

/-- Claim C9: the taken_at timestamp prefers DateTimeOriginal, then
DateTimeDigitized, then the generic DateTime tag, then falls back to the
filesystem modification time; the basic-metadata extractor computes its
taken_at field exactly this way. -/
theorem taken_at_precedence_order :
    (∀ a b c mt, taken_at_of (some a) b c mt = a) ∧
    (∀ b c mt, taken_at_of none (some b) c mt = b) ∧
    (∀ c mt, taken_at_of none none (some c) mt = c) ∧
    (∀ mt, taken_at_of none none none mt = mt) ∧
    (∀ bs mt, (extract_basic bs mt).taken_at =
      some (taken_at_of (parseExif bs).dateTimeOriginal
        (parseExif bs).dateTimeDigitized (parseExif bs).dateTime mt)) := by
  refine ⟨?_, ?_, ?_, ?_, ?_⟩ <;> intros <;> rfl
